import Mathlib

/-!
Shallow embedding of the sdc-login-ons service (src/app.py): a credential
verification and token issuance service.  Pure data is translated directly;
the Flask request/response boundary is made explicit (the request URL, the
parsed JSON body and the token header become parameters; `jsonify` responses
become inductive result values).  The repository's local jwt module is not
under src/, so the Token Codec is modelled from the spec (section 4.3); the
passlib CryptContext is an external library modelled from its documented
contract (spec section 4.2), with the salt made an explicit parameter.
-/

namespace SdcLoginOns

/-- A JSON object with string-valued fields, as an association list.
Token claims, login credentials and profile patches all have this shape. -/
abbrev Claims := List (String × String)

/-- Modelled from the spec: the signature (MAC) produced by the repository's
jwt module (not under src/).  Symbolic MAC: the signature value is fully
determined by, and determines, the secret key, the declared algorithm and
the entire claims payload, which models "the signature covers the entire
claims payload" of spec section 4.3. -/
structure Sig where
  key : String
  alg : String
  payload : Claims
deriving DecidableEq, Repr

/-- Modelled from the spec: computing the MAC over the whole payload with the
process-wide secret key. -/
def mac (key alg : String) (payload : Claims) : Sig :=
  ⟨key, alg, payload⟩

/-- A well-formed token: declared signing algorithm, claims payload and
signature, the three parts of a compact JWS. -/
structure Token where
  alg : String
  claims : Claims
  sig : Sig
deriving DecidableEq, Repr

/-- The error raised by the jose JWS layer, caught in validate_token
(src/app.py line 176). -/
inductive JWSError where
  | malformedToken
  | algorithmMismatch
  | signatureMismatch
deriving DecidableEq, Repr

/-- Modelled from the spec: process configuration (spec section 6) — the
signing secret is required and established from the environment at startup. -/
structure Config where
  jwt_secret : String
deriving Repr

/-- Modelled from the spec: the jwt module's encode (called at src/app.py
line 96).  Signs the claims with the process-wide secret under HS256. -/
def encode (key : String) (claims : Claims) : Token :=
  ⟨"HS256", claims, mac key "HS256" claims⟩

/-- The token header as received on the wire: absent (or empty, both falsy in
validate_token), a nonempty string that does not parse as a token, or a
well-formed token. -/
inductive TokenWire where
  | absent
  | malformed (s : String)
  | wellFormed (t : Token)
deriving DecidableEq, Repr

/-- Python truthiness of the token header string: only absent/empty is falsy
(src/app.py line 173). -/
def TokenWire.truthy : TokenWire → Bool
  | .absent => false
  | .malformed _ => true
  | .wellFormed _ => true

/-- Modelled from the spec: the jwt module's decode (spec section 4.3).  It
raises JWSError (modelled as Except.error) when the string is malformed, when
the declared algorithm is not the expected HS256, or when the signature does
not match the MAC recomputed over the received payload; otherwise it returns
the claims. -/
def decode (key : String) : TokenWire → Except JWSError Claims
  | .absent => .error .malformedToken
  | .malformed _ => .error .malformedToken
  | .wellFormed t =>
    if t.alg = "HS256" then
      if t.sig = mac key t.alg t.claims then
        .ok t.claims
      else
        .error .signatureMismatch
    else
      .error .algorithmMismatch

/-- validate_token (src/app.py lines 171-177): a falsy token falls through
(implicit None); otherwise decode is called and a raised JWSError is caught,
returning "" — both falsy results are modelled as none. -/
def validate_token (key : String) (token : TokenWire) : Option Claims :=
  if token.truthy then
    match decode key token with
    | .ok claims => some claims
    | .error _ => none
  else
    none

/-- A stored password hash.  Symbolic model of the external passlib
CryptContext (spec section 4.2): salted — the hash depends on the salt, so
hashing is not deterministic — and self-describing, holding what verification
needs. -/
structure PwHash where
  check : String
  salt : Nat
deriving DecidableEq, Repr

/-- Symbolic model of pwd_context.encrypt (src/app.py line 64): the salt,
internal randomness of passlib, is an explicit parameter. -/
def pwd_context_encrypt (salt : Nat) (password : String) : PwHash :=
  ⟨password, salt⟩

/-- Symbolic model of pwd_context.verify (src/app.py line 69): checks the
plaintext against the hash, whatever the salt. -/
def pwd_context_verify (password : String) (h : PwHash) : Bool :=
  password == h.check

/-- The User model (src/app.py lines 34-69), without the surrogate primary
key, which no handler reads.  password_hash is nullable. -/
structure User where
  user_id : String
  name : String
  email : String
  password_hash : Option PwHash
deriving DecidableEq, Repr

/-- User.json (src/app.py lines 56-59): the public projection. -/
def User.json (u : User) : Claims :=
  [("user_id", u.user_id), ("name", u.name), ("email", u.email)]

/-- User.set_password (src/app.py lines 61-64): None clears the hash,
otherwise the plaintext is hashed with a fresh salt. -/
def User.set_password (u : User) (salt : Nat) (password : Option String) : User :=
  { u with password_hash := password.map (pwd_context_encrypt salt) }

/-- User.verify_password (src/app.py lines 66-69): a null hash short-circuits
to False; otherwise pwd_context.verify decides. -/
def User.verify_password (u : User) (password : String) : Bool :=
  match u.password_hash with
  | none => false
  | some h => pwd_context_verify password h

/-- The user store: the ORM table as a list of records; filter_by(...).first()
is the first list element matching the filter. -/
abbrev Store := List User

/-- User.query.filter_by(email=...).first() (src/app.py line 93). -/
def find_by_email (store : Store) (email : String) : Option User :=
  store.find? (fun u => u.email == email)

/-- User.query.filter_by(user_id=...).first() (src/app.py lines 110, 125). -/
def find_by_user_id (store : Store) (user_id : String) : Option User :=
  store.find? (fun u => u.user_id == user_id)

/-- The message body built by the 401/400 error handlers
(src/app.py lines 139, 151): "{}: {}".format(error, request.url). -/
def error_message (error url : String) : String :=
  error ++ ": " ++ url

/-- Result of the login handler: either a 200 response carrying the token, or
an error response with its HTTP status code and message body. -/
inductive LoginResult where
  | token (t : Token)
  | err (status : Nat) (message : String)
deriving DecidableEq, Repr

/-- login (src/app.py lines 88-100).  The parsed request JSON is
credentials; none models a missing/non-JSON body (request.get_json() = None),
and an empty object is falsy like None.  Unknown email and failed password
verification share the same "Access denied" 401 return. -/
def login (key : String) (store : Store) (credentials : Option Claims)
    (url : String) : LoginResult :=
  match credentials with
  | none => .err 401 (error_message "Please provide a Json message with \x27email\x27 and \x27password\x27 fields." url)
  | some creds =>
    if creds.isEmpty then
      .err 401 (error_message "Please provide a Json message with \x27email\x27 and \x27password\x27 fields." url)
    else
      match creds.lookup "email", creds.lookup "password" with
      | some email, some password =>
        match find_by_email store email with
        | some user =>
          if user.verify_password password then
            .token (encode key user.json)
          else
            .err 401 (error_message "Access denied" url)
        | none => .err 401 (error_message "Access denied" url)
      | _, _ => .err 401 (error_message "Please provide a Json message with \x27email\x27 and \x27password\x27 fields." url)

/-- Result of a profile handler: a 200 response with the projection body, or
an error response with status and message. -/
inductive ProfileResp where
  | ok (body : Claims)
  | err (status : Nat) (message : String)
deriving DecidableEq, Repr

/-- The check `data and "user_id" in data` followed by data["user_id"]
(src/app.py lines 108, 123): data must be truthy (a nonempty claims object)
and contain a user_id. -/
def verified_user_id (data : Option Claims) : Option String :=
  match data with
  | none => none
  | some claims => if claims.isEmpty then none else claims.lookup "user_id"

/-- profile, the GET /profile handler (src/app.py lines 103-114). -/
def profile (key : String) (store : Store) (token : TokenWire)
    (url : String) : ProfileResp :=
  match verified_user_id (validate_token key token) with
  | some uid =>
    match find_by_user_id store uid with
    | some user => .ok user.json
    | none => .err 400 (error_message ("Respondent ID " ++ uid ++ " not found.") url)
  | none => .err 401 (error_message "Please provide a token header that includes a user_id." url)

/-- The ORM mutation user.name = new_name; db.session.commit()
(src/app.py lines 128-129): the record .first() returned — the first match —
is updated in place and persisted. -/
def update_name (store : Store) (user_id new_name : String) : Store :=
  match store with
  | [] => []
  | u :: rest =>
    if u.user_id == user_id then
      { u with name := new_name } :: rest
    else
      u :: update_name rest user_id new_name

/-- Outcome of the POST /profile handler: a response together with the store
state after the request, or an unhandled Python fault escaping the handler. -/
inductive HandlerOutcome where
  | resp (r : ProfileResp) (store : Store)
  | fault (error : String)
deriving DecidableEq, Repr

/-- profile_update, the POST /profile handler (src/app.py lines 117-132).
body is the parsed request JSON; none models request.get_json() = None
(absent or non-JSON body).  When a verified user is found, the handler
evaluates `"name" in json`, which raises TypeError when json is None. -/
def profile_update (key : String) (store : Store) (token : TokenWire)
    (body : Option Claims) (url : String) : HandlerOutcome :=
  match verified_user_id (validate_token key token) with
  | some uid =>
    match find_by_user_id store uid with
    | some user =>
      match body with
      | none => .fault "TypeError: argument of type \x27NoneType\x27 is not iterable"
      | some patch =>
        match patch.lookup "name" with
        | some new_name =>
          .resp (.ok ({ user with name := new_name }).json) (update_name store uid new_name)
        | none => .resp (.ok user.json) store
    | none => .resp (.err 400 (error_message ("Respondent ID " ++ uid ++ " not found.") url)) store
  | none => .resp (.err 401 (error_message "Please provide a token header that includes a user_id." url)) store

/-- A fixture user, as seeded by create_users (src/app.py lines 193-198),
with the demo password hashed at salt 0. -/
def nick : User :=
  { user_id := "101", name := "Nick Gravgaard",
    email := "nick.gravgaard@example.com",
    password_hash := some (pwd_context_encrypt 0 "password") }

/-- A one-user fixture store for concrete evaluations. -/
def demoStore : Store := [nick]

/-- A token differs from another in exactly one of its three parts: the
declared algorithm, the claims payload, or the signature.  This is how a
single-bit change to the serialized token surfaces at the structural level
when the string still parses. -/
def singleFieldMutation (t t' : Token) : Prop :=
  (t'.alg ≠ t.alg ∧ t'.claims = t.claims ∧ t'.sig = t.sig) ∨
  (t'.alg = t.alg ∧ t'.claims ≠ t.claims ∧ t'.sig = t.sig) ∨
  (t'.alg = t.alg ∧ t'.claims = t.claims ∧ t'.sig ≠ t.sig)

/-- C6: for every plaintext password, verification against a null stored hash
returns false (the conjunct short-circuits before pwd_context.verify is
reached, so nothing can raise): a user whose password_hash is null can never
authenticate. -/
theorem C6_null_hash_never_verifies (u : User) (p : String)
    (h : u.password_hash = none) : u.verify_password p = false := by
  simp [User.verify_password, h]

theorem C6_witness :
    (User.mk "101" "Nick" "n@example.com" none).password_hash = none ∧
    (User.mk "101" "Nick" "n@example.com" none).verify_password "password" = false :=
  ⟨rfl, C6_null_hash_never_verifies (User.mk "101" "Nick" "n@example.com" none) "password" rfl⟩

/-- C7: for every plaintext p and every salt the hasher may draw, setting the
password to p and then verifying p succeeds: verify(p, hash(p)) = true even
though the salted hash itself differs across salts. -/
theorem C7_verify_after_set_password (u : User) (salt : Nat) (p : String) :
    (u.set_password salt (some p)).verify_password p = true := by
  simp [User.set_password, User.verify_password, pwd_context_encrypt,
    pwd_context_verify]

/-- C1: the token built by encode embeds the MAC computed with the
process-wide secret (from the startup configuration) over the entire claims
payload, and every mutation of the payload under the original signature is
rejected as invalid by the decode path. -/
theorem C1_signature_covers_payload (cfg : Config) (c : Claims) :
    (encode cfg.jwt_secret c).sig = mac cfg.jwt_secret "HS256" c ∧
    ∀ c' : Claims, c' ≠ c →
      validate_token cfg.jwt_secret
        (.wellFormed ⟨(encode cfg.jwt_secret c).alg, c', (encode cfg.jwt_secret c).sig⟩) = none := by
  refine ⟨rfl, ?_⟩
  intro c' hne
  simp [validate_token, TokenWire.truthy, decode, encode, mac, Sig.mk.injEq,
    Ne.symm hne]

theorem C1_witness :
    (encode "secret" [("user_id", "101")]).sig = mac "secret" "HS256" [("user_id", "101")] ∧
    validate_token "secret"
      (.wellFormed ⟨(encode "secret" [("user_id", "101")]).alg, [],
        (encode "secret" [("user_id", "101")]).sig⟩) = none :=
  ⟨(C1_signature_covers_payload ⟨"secret"⟩ [("user_id", "101")]).1,
   (C1_signature_covers_payload ⟨"secret"⟩ [("user_id", "101")]).2 [] (by decide)⟩

/-- C2: decoding the token produced by encode returns exactly the original
claims, and a single-bit mutation of the token string — which either breaks
parsing or changes exactly one of the algorithm, payload or signature parts —
makes validation return invalid. -/
theorem C2_roundtrip_and_mutation_rejected (key : String) (c : Claims) :
    validate_token key (.wellFormed (encode key c)) = some c ∧
    (∀ s : String, validate_token key (.malformed s) = none) ∧
    ∀ t' : Token, singleFieldMutation (encode key c) t' →
      validate_token key (.wellFormed t') = none := by
  refine ⟨by simp [validate_token, TokenWire.truthy, decode, encode],
    fun s => rfl, ?_⟩
  intro t' hmut
  obtain ⟨a', c', s'⟩ := t'
  simp only [singleFieldMutation, encode] at hmut
  rcases hmut with ⟨h1, h2, h3⟩ | ⟨h1, h2, h3⟩ | ⟨h1, h2, h3⟩
  · subst h2; subst h3
    simp [validate_token, TokenWire.truthy, decode, h1]
  · subst h1; subst h3
    simp [validate_token, TokenWire.truthy, decode, mac, Sig.mk.injEq,
      Ne.symm h2]
  · subst h1; subst h2
    simp [validate_token, TokenWire.truthy, decode, h3]

theorem C2_witness :
    validate_token "secret" (.wellFormed (encode "secret" [("user_id", "101")])) =
      some [("user_id", "101")] ∧
    validate_token "secret" (.malformed "garbage") = none ∧
    validate_token "secret"
      (.wellFormed ⟨"none", [("user_id", "101")], mac "secret" "HS256" [("user_id", "101")]⟩) = none :=
  ⟨(C2_roundtrip_and_mutation_rejected "secret" [("user_id", "101")]).1,
   (C2_roundtrip_and_mutation_rejected "secret" [("user_id", "101")]).2.1 "garbage",
   (C2_roundtrip_and_mutation_rejected "secret" [("user_id", "101")]).2.2
     ⟨"none", [("user_id", "101")], mac "secret" "HS256" [("user_id", "101")]⟩
     (Or.inl ⟨by decide, rfl, rfl⟩)⟩

/-- C3: token validation never lets an exception escape: an absent/empty
token yields the invalid result directly, and every failure decode can raise
(malformed input, algorithm mismatch, signature mismatch) is caught and
mapped to the invalid result. -/
theorem C3_validation_never_raises (key : String) :
    validate_token key .absent = none ∧
    ∀ w : TokenWire, ∀ e : JWSError, decode key w = .error e →
      validate_token key w = none := by
  refine ⟨rfl, ?_⟩
  intro w e h
  simp [validate_token, h]

theorem C3_witness :
    validate_token "secret" .absent = none ∧
    validate_token "secret" (.malformed "not-a-token") = none :=
  ⟨(C3_validation_never_raises "secret").1,
   (C3_validation_never_raises "secret").2 (.malformed "not-a-token")
     .malformedToken rfl⟩

/-- C4: a login with an unknown email and a login with a stored email but a
failing password produce the very same response — status 401 with the
"Access denied" body — so the two failure causes are indistinguishable to
the caller. -/
theorem C4_login_enumeration_resistant (key : String) (store : Store)
    (url : String) (c1 c2 : Claims) (e1 p1 e2 p2 : String) (u : User)
    (h1e : c1.lookup "email" = some e1) (h1p : c1.lookup "password" = some p1)
    (h2e : c2.lookup "email" = some e2) (h2p : c2.lookup "password" = some p2)
    (hfind1 : find_by_email store e1 = none)
    (hfind2 : find_by_email store e2 = some u)
    (hverify : u.verify_password p2 = false) :
    login key store (some c1) url = .err 401 (error_message "Access denied" url) ∧
    login key store (some c2) url = .err 401 (error_message "Access denied" url) ∧
    login key store (some c1) url = login key store (some c2) url := by
  have hne1 : c1.isEmpty = false := by
    cases c1 with
    | nil => simp at h1e
    | cons a l => rfl
  have hne2 : c2.isEmpty = false := by
    cases c2 with
    | nil => simp at h2e
    | cons a l => rfl
  have hA : login key store (some c1) url =
      .err 401 (error_message "Access denied" url) := by
    simp [login, hne1, h1e, h1p, hfind1]
  have hB : login key store (some c2) url =
      .err 401 (error_message "Access denied" url) := by
    simp [login, hne2, h2e, h2p, hfind2, hverify]
  exact ⟨hA, hB, hA.trans hB.symm⟩

theorem C4_witness :
    login "secret" demoStore
      (some [("email", "unknown@example.com"), ("password", "x")]) "http://u/login" =
      .err 401 (error_message "Access denied" "http://u/login") ∧
    login "secret" demoStore
      (some [("email", "nick.gravgaard@example.com"), ("password", "wrong")]) "http://u/login" =
      .err 401 (error_message "Access denied" "http://u/login") ∧
    login "secret" demoStore
      (some [("email", "unknown@example.com"), ("password", "x")]) "http://u/login" =
    login "secret" demoStore
      (some [("email", "nick.gravgaard@example.com"), ("password", "wrong")]) "http://u/login" :=
  C4_login_enumeration_resistant "secret" demoStore "http://u/login"
    [("email", "unknown@example.com"), ("password", "x")]
    [("email", "nick.gravgaard@example.com"), ("password", "wrong")]
    "unknown@example.com" "x" "nick.gravgaard@example.com" "wrong" nick
    (by decide) (by decide) (by decide) (by decide)
    (by decide) (by decide) (by decide)

/-- C5: every profile request — GET profile or POST profile_update — with an
absent/invalid token, or whose claims lack a user_id, gets the 401
missing-or-invalid-token error; a valid token whose user_id matches no stored
user gets the distinct 400 error whose body is
"Respondent ID <id> not found.: <url>".  The POST error paths return before
the patch body is ever touched, for any body including None. -/
theorem C5_profile_error_paths (key : String) (store : Store) (w : TokenWire)
    (url : String) :
    (validate_token key w = none →
      profile key store w url =
        .err 401 (error_message "Please provide a token header that includes a user_id." url)) ∧
    (∀ claims : Claims, validate_token key w = some claims →
      claims.lookup "user_id" = none →
      profile key store w url =
        .err 401 (error_message "Please provide a token header that includes a user_id." url)) ∧
    (∀ claims : Claims, ∀ uid : String, validate_token key w = some claims →
      claims.lookup "user_id" = some uid →
      find_by_user_id store uid = none →
      profile key store w url =
        .err 400 (error_message ("Respondent ID " ++ uid ++ " not found.") url)) ∧
    (∀ b : Option Claims, validate_token key w = none →
      profile_update key store w b url =
        .resp (.err 401 (error_message "Please provide a token header that includes a user_id." url)) store) ∧
    (∀ b : Option Claims, ∀ claims : Claims, validate_token key w = some claims →
      claims.lookup "user_id" = none →
      profile_update key store w b url =
        .resp (.err 401 (error_message "Please provide a token header that includes a user_id." url)) store) ∧
    ∀ b : Option Claims, ∀ claims : Claims, ∀ uid : String,
      validate_token key w = some claims →
      claims.lookup "user_id" = some uid →
      find_by_user_id store uid = none →
      profile_update key store w b url =
        .resp (.err 400 (error_message ("Respondent ID " ++ uid ++ " not found.") url)) store := by
  refine ⟨?_, ?_, ?_, ?_, ?_, ?_⟩
  · intro h
    simp [profile, verified_user_id, h]
  · intro claims h hl
    simp [profile, verified_user_id, h, hl]
  · intro claims uid h hl hf
    have hne : claims.isEmpty = false := by
      cases claims with
      | nil => simp at hl
      | cons a l => rfl
    simp [profile, verified_user_id, h, hne, hl, hf]
  · intro b h
    simp [profile_update, verified_user_id, h]
  · intro b claims h hl
    simp [profile_update, verified_user_id, h, hl]
  · intro b claims uid h hl hf
    have hne : claims.isEmpty = false := by
      cases claims with
      | nil => simp at hl
      | cons a l => rfl
    simp [profile_update, verified_user_id, h, hne, hl, hf]

theorem C5_witness :
    profile "secret" demoStore .absent "http://u/profile" =
      .err 401 (error_message "Please provide a token header that includes a user_id." "http://u/profile") ∧
    profile "secret" demoStore (.wellFormed (encode "secret" [("name", "X")])) "http://u/profile" =
      .err 401 (error_message "Please provide a token header that includes a user_id." "http://u/profile") ∧
    profile "secret" demoStore (.wellFormed (encode "secret" [("user_id", "999")])) "http://u/profile" =
      .err 400 (error_message ("Respondent ID " ++ "999" ++ " not found.") "http://u/profile") ∧
    profile_update "secret" demoStore .absent none "http://u/profile" =
      .resp (.err 401 (error_message "Please provide a token header that includes a user_id." "http://u/profile")) demoStore ∧
    profile_update "secret" demoStore (.wellFormed (encode "secret" [("name", "X")])) none "http://u/profile" =
      .resp (.err 401 (error_message "Please provide a token header that includes a user_id." "http://u/profile")) demoStore ∧
    profile_update "secret" demoStore (.wellFormed (encode "secret" [("user_id", "999")])) none "http://u/profile" =
      .resp (.err 400 (error_message ("Respondent ID " ++ "999" ++ " not found.") "http://u/profile")) demoStore :=
  ⟨(C5_profile_error_paths "secret" demoStore .absent "http://u/profile").1 rfl,
   (C5_profile_error_paths "secret" demoStore
      (.wellFormed (encode "secret" [("name", "X")])) "http://u/profile").2.1
     [("name", "X")] (by decide) (by decide),
   (C5_profile_error_paths "secret" demoStore
      (.wellFormed (encode "secret" [("user_id", "999")])) "http://u/profile").2.2.1
     [("user_id", "999")] "999" (by decide) (by decide) (by decide),
   (C5_profile_error_paths "secret" demoStore .absent "http://u/profile").2.2.2.1
     none rfl,
   (C5_profile_error_paths "secret" demoStore
      (.wellFormed (encode "secret" [("name", "X")])) "http://u/profile").2.2.2.2.1
     none [("name", "X")] (by decide) (by decide),
   (C5_profile_error_paths "secret" demoStore
      (.wellFormed (encode "secret" [("user_id", "999")])) "http://u/profile").2.2.2.2.2
     none [("user_id", "999")] "999" (by decide) (by decide) (by decide)⟩

/-- Renaming a user touches only the name column: user_id, email and
password_hash of every record are unchanged. -/
theorem update_name_preserves_identity (store : Store) (uid n : String) :
    (update_name store uid n).map (fun v => (v.user_id, v.email, v.password_hash)) =
      store.map (fun v => (v.user_id, v.email, v.password_hash)) := by
  induction store with
  | nil => rfl
  | cons u rest ih =>
    simp only [update_name]
    split
    · simp
    · simp [ih]

/-- C8: with a valid token resolving to a stored user and a JSON-object
patch, a name field in the patch is persisted to the store before the
response is built and the returned projection carries the new name; the
outcome depends only on the name field, so every other patch field is
ignored without error; and user_id, email and password_hash of every record
are unchanged. -/
theorem C8_profile_update_name_only (key : String) (store : Store)
    (w : TokenWire) (url : String) (claims patch : Claims) (uid : String)
    (user : User)
    (hv : validate_token key w = some claims)
    (hu : claims.lookup "user_id" = some uid)
    (hf : find_by_user_id store uid = some user) :
    (∀ new_name : String, patch.lookup "name" = some new_name →
      profile_update key store w (some patch) url =
        .resp (.ok ({ user with name := new_name }).json)
          (update_name store uid new_name) ∧
      ({ user with name := new_name } : User).json.lookup "name" = some new_name) ∧
    (patch.lookup "name" = none →
      profile_update key store w (some patch) url = .resp (.ok user.json) store) ∧
    (∀ patch' : Claims, patch'.lookup "name" = patch.lookup "name" →
      profile_update key store w (some patch') url =
        profile_update key store w (some patch) url) ∧
    ∀ new_name : String,
      (update_name store uid new_name).map (fun v => (v.user_id, v.email, v.password_hash)) =
        store.map (fun v => (v.user_id, v.email, v.password_hash)) := by
  have hne : claims.isEmpty = false := by
    cases claims with
    | nil => simp at hu
    | cons a l => rfl
  have hvu : verified_user_id (validate_token key w) = some uid := by
    simp [verified_user_id, hv, hne, hu]
  refine ⟨?_, ?_, ?_, ?_⟩
  · intro new_name hn
    refine ⟨by simp [profile_update, hvu, hf, hn], ?_⟩
    simp [User.json, List.lookup]
  · intro hn
    simp [profile_update, hvu, hf, hn]
  · intro patch' hp
    cases hcase : patch.lookup "name" with
    | none =>
      rw [hcase] at hp
      simp [profile_update, hvu, hf, hp, hcase]
    | some n =>
      rw [hcase] at hp
      simp [profile_update, hvu, hf, hp, hcase]
  · intro new_name
    exact update_name_preserves_identity store uid new_name

theorem C8_witness :
    profile_update "secret" demoStore (.wellFormed (encode "secret" (User.json nick)))
      (some [("name", "Nick G."), ("email", "evil@example.com")]) "http://u/profile" =
      .resp (.ok ({ nick with name := "Nick G." }).json)
        (update_name demoStore "101" "Nick G.") ∧
    profile_update "secret" demoStore (.wellFormed (encode "secret" (User.json nick)))
      (some [("other", "x")]) "http://u/profile" =
      .resp (.ok nick.json) demoStore ∧
    (update_name demoStore "101" "Nick G.").map (fun v => (v.user_id, v.email, v.password_hash)) =
      demoStore.map (fun v => (v.user_id, v.email, v.password_hash)) :=
  ⟨((C8_profile_update_name_only "secret" demoStore
      (.wellFormed (encode "secret" (User.json nick))) "http://u/profile"
      (User.json nick) [("name", "Nick G."), ("email", "evil@example.com")]
      "101" nick (by decide) (by decide) (by decide)).1
      "Nick G." (by decide)).1,
   (C8_profile_update_name_only "secret" demoStore
      (.wellFormed (encode "secret" (User.json nick))) "http://u/profile"
      (User.json nick) [("other", "x")]
      "101" nick (by decide) (by decide) (by decide)).2.1 (by decide),
   (C8_profile_update_name_only "secret" demoStore
      (.wellFormed (encode "secret" (User.json nick))) "http://u/profile"
      (User.json nick) [("name", "Nick G."), ("email", "evil@example.com")]
      "101" nick (by decide) (by decide) (by decide)).2.2.2 "Nick G."⟩

/-- C10: a POST /profile request whose token is valid and resolves to a
stored user, but whose body parsed to None (absent or not JSON), reaches the
membership test on the None body and so ends in an unhandled TypeError, not
in any of the defined error envelopes. -/
theorem C10_null_body_unhandled_fault (key : String) (store : Store)
    (w : TokenWire) (url : String) (claims : Claims) (uid : String)
    (user : User)
    (hv : validate_token key w = some claims)
    (hu : claims.lookup "user_id" = some uid)
    (hf : find_by_user_id store uid = some user) :
    profile_update key store w none url =
      .fault "TypeError: argument of type \x27NoneType\x27 is not iterable" := by
  have hne : claims.isEmpty = false := by
    cases claims with
    | nil => simp at hu
    | cons a l => rfl
  have hvu : verified_user_id (validate_token key w) = some uid := by
    simp [verified_user_id, hv, hne, hu]
  simp [profile_update, hvu, hf]

theorem C10_witness :
    profile_update "secret" demoStore (.wellFormed (encode "secret" (User.json nick)))
      none "http://u/profile" =
      .fault "TypeError: argument of type \x27NoneType\x27 is not iterable" :=
  C10_null_body_unhandled_fault "secret" demoStore
    (.wellFormed (encode "secret" (User.json nick))) "http://u/profile"
    (User.json nick) "101" nick (by decide) (by decide) (by decide)

/-- C9: the claims of every token issued by login and the body of every
successful profile response equal a user's public projection, whose fields
are exactly user_id, name and email — password_hash never appears. -/
theorem C9_public_projection_only :
    (∀ u : User, u.json.map Prod.fst = ["user_id", "name", "email"]) ∧
    (∀ u : User, "password_hash" ∉ u.json.map Prod.fst) ∧
    (∀ key : String, ∀ store : Store, ∀ creds : Option Claims, ∀ url : String,
      ∀ t : Token, login key store creds url = LoginResult.token t →
      t.claims.map Prod.fst = ["user_id", "name", "email"]) ∧
    (∀ key : String, ∀ store : Store, ∀ w : TokenWire, ∀ url : String,
      ∀ body : Claims, profile key store w url = ProfileResp.ok body →
      body.map Prod.fst = ["user_id", "name", "email"]) ∧
    ∀ key : String, ∀ store : Store, ∀ w : TokenWire, ∀ b : Option Claims,
      ∀ url : String, ∀ body : Claims, ∀ store2 : Store,
      profile_update key store w b url = .resp (.ok body) store2 →
      body.map Prod.fst = ["user_id", "name", "email"] := by
  refine ⟨fun u => rfl, fun u => by simp [User.json], ?_, ?_, ?_⟩
  · intro key store creds url t h
    cases creds with
    | none => simp [login] at h
    | some creds =>
      simp only [login] at h
      split at h
      · simp at h
      · split at h
        · split at h
          · split at h
            · simp at h
              subst h
              rfl
            · simp at h
          · simp at h
        · simp at h
  · intro key store w url body h
    unfold profile at h
    split at h
    · split at h
      · simp at h
        subst h
        rfl
      · simp at h
    · simp at h
  · intro key store w b url body store2 h
    unfold profile_update at h
    split at h
    · split at h
      · split at h
        · simp at h
        · split at h
          · simp at h
            obtain ⟨h1, h2⟩ := h
            subst h1
            rfl
          · simp at h
            obtain ⟨h1, h2⟩ := h
            subst h1
            rfl
      · simp at h
    · simp at h

theorem C9_witness :
    (User.json nick).map Prod.fst = ["user_id", "name", "email"] ∧
    "password_hash" ∉ (User.json nick).map Prod.fst ∧
    (encode "secret" (User.json nick)).claims.map Prod.fst = ["user_id", "name", "email"] ∧
    ([("user_id", "101"), ("name", "Nick Gravgaard"),
      ("email", "nick.gravgaard@example.com")] : Claims).map Prod.fst =
      ["user_id", "name", "email"] ∧
    (({ nick with name := "X" } : User).json).map Prod.fst = ["user_id", "name", "email"] :=
  ⟨C9_public_projection_only.1 nick,
   C9_public_projection_only.2.1 nick,
   C9_public_projection_only.2.2.1 "secret" demoStore
     (some [("email", "nick.gravgaard@example.com"), ("password", "password")])
     "http://u/login" (encode "secret" (User.json nick)) (by decide),
   C9_public_projection_only.2.2.2.1 "secret" demoStore
     (.wellFormed (encode "secret" (User.json nick))) "http://u/profile"
     [("user_id", "101"), ("name", "Nick Gravgaard"),
      ("email", "nick.gravgaard@example.com")] (by decide),
   C9_public_projection_only.2.2.2.2 "secret" demoStore
     (.wellFormed (encode "secret" (User.json nick))) (some [("name", "X")])
     "http://u/profile" (({ nick with name := "X" } : User).json)
     (update_name demoStore "101" "X") (by decide)⟩

end SdcLoginOns
